import Mathlib

/-!
Verification of the Python Federate Protocol client library (FedPro).

The definitions below are a shallow embedding of the source files
`libsrc/fedPro/*.py` (message codec) and
`libsrc/fedProWrapper/fedProMessageHandler.py`,
`libsrc/fedProWrapper/rtiAmbassadorFedPro.py`,
`libsrc/fedProWrapper/federateAmbassadorFedPro.py` (protocol engine,
ambassador facade, callback dispatcher).  Bytes are modelled as `Nat`
values below 256, Python `struct.pack` with big-endian fields as
concatenation of fixed-width big-endian byte lists (returning `none`
where `struct.pack` would raise on an out-of-range field), and Python
exceptions as `Except` errors.  Logging and wall-clock timing are not
modelled; an exhausted inbound buffer stands for a read deadline
elapsing with no data.
-/

namespace FedPro

/-! ## Big-endian byte encoding (model of struct.pack / struct.unpack) -/

/-- Big-endian encoding of `v` into exactly `w` bytes (most significant
first).  Mirrors one fixed-width field of Python `struct.pack` with a
`>` format; callers guard the range `v < 256 ^ w` as `struct.pack`
raises on overflow. -/
def beBytes : Nat → Nat → List Nat
  | 0, _ => []
  | w + 1, v => beBytes w (v / 256) ++ [v % 256]

/-- Big-endian decoding of a byte list, as `struct.unpack` reads one
fixed-width field. -/
def beVal (bs : List Nat) : Nat := bs.foldl (fun a b => a * 256 + b) 0

theorem length_beBytes (w v : Nat) : (beBytes w v).length = w := by
  induction w generalizing v with
  | zero => rfl
  | succ w ih => simp [beBytes, ih]

theorem beVal_append_singleton (bs : List Nat) (b : Nat) :
    beVal (bs ++ [b]) = beVal bs * 256 + b := by
  simp [beVal, List.foldl_append]

theorem beVal_beBytes (w v : Nat) (h : v < 256 ^ w) :
    beVal (beBytes w v) = v := by
  induction w generalizing v with
  | zero =>
    simp [pow_zero] at h
    simp [beBytes, beVal, h]
  | succ w ih =>
    have hdiv : v / 256 < 256 ^ w := by
      rw [Nat.div_lt_iff_lt_mul (by norm_num : 0 < 256)]
      calc v < 256 ^ (w + 1) := h
        _ = 256 ^ w * 256 := by ring
    rw [beBytes, beVal_append_singleton, ih _ hdiv]
    omega

theorem beBytes_split (a b v : Nat) :
    beBytes (a + b) v = beBytes a (v / 256 ^ b) ++ beBytes b v := by
  induction b generalizing v with
  | zero => simp [beBytes]
  | succ b ih =>
    have : a + (b + 1) = (a + b) + 1 := by ring
    rw [this, beBytes, ih, beBytes, List.append_assoc,
      Nat.div_div_eq_div_mul, pow_succ, mul_comm (256 ^ b) 256]

/-! ## Message type discriminator (fedProMessage.py, class MsgType) -/

/-- The `MsgType` enumeration of `libsrc/fedPro/fedProMessage.py`. -/
inductive MsgType where
  | UNKNOWN
  | CTRL_NEW_SESSION
  | CTRL_NEW_SESSION_STATUS
  | CTRL_HEARTBEAT
  | CTRL_HEARTBEAT_RESPONSE
  | CTRL_TERMINATE_SESSION
  | CTRL_SESSION_TERMINATED
  | CTRL_RESUME_REQUEST
  | CTRL_RESUME_STATUS
  | HLA_CALL_REQUEST
  | HLA_CALL_RESPONSE
  | HLA_CALLBACK_REQUEST
  | HLA_CALLBACK_RESPONSE
  | INVALID
deriving DecidableEq, Repr

/-- Numeric value of each `MsgType` member, exactly as in the source. -/
def MsgType.toNat : MsgType → Nat
  | .UNKNOWN => 0
  | .CTRL_NEW_SESSION => 1
  | .CTRL_NEW_SESSION_STATUS => 2
  | .CTRL_HEARTBEAT => 3
  | .CTRL_HEARTBEAT_RESPONSE => 4
  | .CTRL_TERMINATE_SESSION => 6
  | .CTRL_SESSION_TERMINATED => 7
  | .CTRL_RESUME_REQUEST => 10
  | .CTRL_RESUME_STATUS => 11
  | .HLA_CALL_REQUEST => 20
  | .HLA_CALL_RESPONSE => 21
  | .HLA_CALLBACK_REQUEST => 22
  | .HLA_CALLBACK_RESPONSE => 23
  | .INVALID => 99

/-- Python `MsgType(n)`: the member with value `n`, or `none` where the
enum constructor raises `ValueError`. -/
def MsgType.ofNat? : Nat → Option MsgType
  | 0 => some .UNKNOWN
  | 1 => some .CTRL_NEW_SESSION
  | 2 => some .CTRL_NEW_SESSION_STATUS
  | 3 => some .CTRL_HEARTBEAT
  | 4 => some .CTRL_HEARTBEAT_RESPONSE
  | 6 => some .CTRL_TERMINATE_SESSION
  | 7 => some .CTRL_SESSION_TERMINATED
  | 10 => some .CTRL_RESUME_REQUEST
  | 11 => some .CTRL_RESUME_STATUS
  | 20 => some .HLA_CALL_REQUEST
  | 21 => some .HLA_CALL_RESPONSE
  | 22 => some .HLA_CALLBACK_REQUEST
  | 23 => some .HLA_CALLBACK_RESPONSE
  | 99 => some .INVALID
  | _ => none

theorem MsgType.ofNat_toNat (t : MsgType) : MsgType.ofNat? t.toNat = some t := by
  cases t <;> rfl

/-! ## Base envelope codec (fedProMessage.py, class FedProMessage) -/

/-- Header fields and payload of a FedPro envelope, as held by the
`FedProMessage` Python object. -/
structure FedProMessage where
  my_msg_type : MsgType
  my_msg_size : Nat
  my_session_id : Nat
  my_sequence_num : Nat
  my_last_received_msg : Nat
  my_payload : List Nat
deriving DecidableEq, Repr

/-- `FedProMessage.to_bytes`: the source packs the format `>IIQQ` with
the members `(my_msg_size, my_sequence_num, my_session_id,
int(my_msg_type))`.  Note that `my_last_received_msg` and `my_payload`
are not serialized and the message type occupies eight bytes.  `none`
models `struct.error` on an out-of-range field (the type value is at
most 99, always in range for `Q`). -/
def FedProMessage.to_bytes (m : FedProMessage) : Option (List Nat) :=
  if m.my_msg_size < 2 ^ 32 ∧ m.my_sequence_num < 2 ^ 32 ∧ m.my_session_id < 2 ^ 64 then
    some (beBytes 4 m.my_msg_size ++ beBytes 4 m.my_sequence_num ++
      beBytes 8 m.my_session_id ++ beBytes 8 m.my_msg_type.toNat)
  else none

/-- `FedProMessage.from_bytes`: `buffer[0]` holds the four size bytes,
`buffer[1]` at least twenty header bytes unpacked as `>IQII`
(sequence, session, last-received, type), the payload being
`buffer[1][20:]` joined with the remaining buffer chunks when
`my_msg_size > 24`.  `none` models `struct.error` on short chunks or
`ValueError` on an unknown type value. -/
def FedProMessage.from_bytes (buffer : List (List Nat)) : Option FedProMessage :=
  match buffer with
  | b0 :: b1 :: rest =>
    if b0.length = 4 ∧ 20 ≤ b1.length then
      match MsgType.ofNat? (beVal ((b1.drop 16).take 4)) with
      | some ty =>
        some { my_msg_type := ty
               my_msg_size := beVal b0
               my_session_id := beVal ((b1.drop 4).take 8)
               my_sequence_num := beVal (b1.take 4)
               my_last_received_msg := beVal ((b1.drop 12).take 4)
               my_payload :=
                 if 24 < beVal b0 then b1.drop 20 ++ rest.flatten else [] }
      | none => none
    else none
  | _ => none

/-- Serialize an envelope and parse the resulting frame back, splitting
the frame into the four size bytes and the remainder as the socket
receive path does. -/
def FedProMessage.round_trip (m : FedProMessage) : Option FedProMessage :=
  m.to_bytes.bind fun bs => FedProMessage.from_bytes [bs.take 4, bs.drop 4]

/-! ## NewSessionMessage (newSessionMessage.py) -/

/-- State of a `NewSessionMessage` object: base header plus the
protocol version. -/
structure NewSessionMessage where
  base : FedProMessage
  my_protocol_version : Nat
deriving DecidableEq, Repr

/-- The `NewSessionMessage.__init__` defaults: type `CTRL_NEW_SESSION`,
size 28, all other header fields zero, protocol version 1. -/
def newSessionMessageInit : NewSessionMessage :=
  { base := { my_msg_type := .CTRL_NEW_SESSION, my_msg_size := 28,
              my_session_id := 0, my_sequence_num := 0,
              my_last_received_msg := 0, my_payload := [] }
    my_protocol_version := 1 }

/-- `NewSessionMessage.to_bytes`: packs the parent member list
(format `IIQQ`: size, sequence, session, type) followed by a four-byte
protocol version. -/
def NewSessionMessage.to_bytes (m : NewSessionMessage) : Option (List Nat) :=
  if m.base.my_msg_size < 2 ^ 32 ∧ m.base.my_sequence_num < 2 ^ 32 ∧
      m.base.my_session_id < 2 ^ 64 ∧ m.my_protocol_version < 2 ^ 32 then
    some (beBytes 4 m.base.my_msg_size ++ beBytes 4 m.base.my_sequence_num ++
      beBytes 8 m.base.my_session_id ++ beBytes 8 m.base.my_msg_type.toNat ++
      beBytes 4 m.my_protocol_version)
  else none

/-! ## CallbackResponseMessage (callbackResponseMessage.py) -/

/-- State of a `CallbackResponseMessage` object.  `set_response_data`
creates an empty protobuf `CallbackResponse` in both branches and only
records the outcome in `my_response_type` (0 on success, 1 on failure)
and `my_succeeded`; no protobuf field is ever populated, so the
serialized response payload is always empty. -/
structure CallbackResponseMessage where
  base : FedProMessage
  my_response_type : Nat
  my_succeeded : Bool
deriving DecidableEq, Repr

/-- `CallbackResponseMessage.__init__(sequence_num, succeeded)`:
type `HLA_CALLBACK_RESPONSE`, size 24, the given sequence number, and
`set_response_data(succeeded)`.  The sequence number is modelled as a
`Nat` (the Python default of -1 would make `struct.pack` raise). -/
def callbackResponseMessageInit (sequence_num : Nat) (succeeded : Bool) :
    CallbackResponseMessage :=
  { base := { my_msg_type := .HLA_CALLBACK_RESPONSE, my_msg_size := 24,
              my_session_id := 0, my_sequence_num := sequence_num,
              my_last_received_msg := 0, my_payload := [] }
    my_response_type := if succeeded then 0 else 1
    my_succeeded := succeeded }

/-- `CallbackResponseMessage.to_bytes`: packs `>IIQII` (size, sequence,
session, last-received, type) followed by the serialized protobuf
payload, which is empty (see `CallbackResponseMessage`). -/
def CallbackResponseMessage.to_bytes (m : CallbackResponseMessage) :
    Option (List Nat) :=
  if m.base.my_msg_size < 2 ^ 32 ∧ m.base.my_sequence_num < 2 ^ 32 ∧
      m.base.my_session_id < 2 ^ 64 ∧ m.base.my_last_received_msg < 2 ^ 32 then
    some (beBytes 4 m.base.my_msg_size ++ beBytes 4 m.base.my_sequence_num ++
      beBytes 8 m.base.my_session_id ++ beBytes 4 m.base.my_last_received_msg ++
      beBytes 4 m.base.my_msg_type.toNat ++ [])
  else none

/-! ## Protocol engine state (fedProMessageHandler.py, class FedProMsgHandler)

The engine model works with numeric discriminators as the source does:
`my_expected_response_type` holds either a `MsgType` value or a
protobuf response-tag (field number), compared with `==`/`is` on small
integers.  The generated `FedProProtobuf` schema module is not part of
the sources; `EXCEPTIONDATA_FIELD_NUMBER = 1` is forced by the guard
`my_hla_msg_type > 1` in `process_call_response`, and the remaining
tags below are distinct representatives greater than 1 — no theorem
depends on their concrete values. -/

def UNKNOWN_TYPE : Int := 0

def EXCEPTIONDATA_FIELD_NUMBER : Int := 1

def CTRL_NEW_SESSION_STATUS_VAL : Int := 2

def CTRL_HEARTBEAT_RESPONSE_VAL : Int := 4

/-- Modelled from the spec: response-tag of `getObjectClassHandleResponse`
in the external payload schema (`FedProProtobuf` is not under the
sources); a representative value greater than 1. -/
def GETOBJECTCLASSHANDLERESPONSE_FIELD_NUMBER : Int := 5

/-- Modelled from the spec: response-tag of `updateAttributeValuesResponse`
in the external payload schema; a representative value greater than 1. -/
def UPDATEATTRIBUTEVALUESRESPONSE_FIELD_NUMBER : Int := 6

/-- A parsed inbound message as produced by the socket read plus the
per-type cast in `read_and_process` (the fields each handler reads). -/
inductive InMsg where
  | newSessionStatus (seq : Nat) (session_id : Nat) (status : Int)
  | heartbeatResponse (seq : Nat)
  | sessionTerminated (seq : Nat)
  | callResponse (seq : Nat) (hla_type : Int) (result_data : List Nat)
  | callbackRequest (seq : Nat) (hla_type : Int)
deriving DecidableEq, Repr

/-- Header fields of an outbound message object, as mutated by
`send_message` and serialized by the per-class `to_bytes`.
`request_tag` is the payload request/response discriminator for
call-class messages (0 for control messages). -/
structure OutEnv where
  msg_type : Int
  seq : Nat
  session_id : Nat
  last_received : Nat
  request_tag : Int
deriving DecidableEq, Repr

/-- Externally visible actions of the engine. -/
inductive Event where
  | sentFrame (env : OutEnv)
  | ambassadorDispatched (hla_type : Int)
deriving DecidableEq, Repr

/-- Python exceptions that escape the engine functions. -/
inductive PyError where
  | fedProMessageError (msg : String)
  | rtiInternalError (msg : String)
deriving DecidableEq, Repr

/-- The mutable state of a `FedProMsgHandler`, excluding wall-clock
heartbeat deadlines.  `connOk` packages `is_connected()` (the
connection flag plus a live socket); `hasAmbassador` the presence of
`federate_ambassador_handler`; `queue` the `my_callback_request_queue`
entries as (sequence, hla type) pairs. -/
structure HState where
  seqNum : Nat
  sessionId : Nat
  sessionStatus : Int
  lastReceived : Nat
  pollResult : Int
  expectedNum : Nat
  expectedType : Int
  queueCallbacks : Bool
  enableCallbacks : Bool
  connOk : Bool
  hasAmbassador : Bool
  queue : List (Nat × Int)
  response : Option InMsg
deriving DecidableEq, Repr

/-- `FedProMsgHandler.send_message`: stamps the session id and the
last-received number on the outbound message, reuses the message's own
sequence number when `sending_callback_response` and otherwise stamps
the current `my_sequence_num` (without incrementing it), then sends if
connected.  Returns the stamped message, the send result (−1 when not
connected) and the frame event; the handler state is not modified. -/
def send_message (st : HState) (request : OutEnv)
    (sending_callback_response : Bool) : OutEnv × Int × List Event :=
  let request := { request with
    session_id := st.sessionId
    seq := if sending_callback_response then request.seq else st.seqNum
    last_received := st.lastReceived }
  if st.connOk then (request, 1, [.sentFrame request])
  else (request, -1, [])

/-- `FedProMsgHandler.process_heartbeat_response`: records the message
and clears the pending expectation when both the expected type and the
expected sequence number match.  (The Python function returns `None`,
which `read_and_process` treats as falsy.) -/
def process_heartbeat_response (st : HState) (seq : Nat) : HState :=
  let st := { st with response := some (.heartbeatResponse seq) }
  if st.expectedType = CTRL_HEARTBEAT_RESPONSE_VAL ∧ st.expectedNum = seq then
    { st with expectedNum := 0, expectedType := UNKNOWN_TYPE }
  else st

/-- `FedProMsgHandler.process_new_session_status`: adopts the session id
and status, clears the expectation on a match, raises
`FedProMessageError` when no response was expected, and otherwise
reports a mismatch. -/
def process_new_session_status (st : HState) (seq session_id : Nat)
    (status : Int) : Except PyError (HState × Bool) :=
  let st := { st with
    response := some (.newSessionStatus seq session_id status)
    sessionId := session_id
    sessionStatus := status }
  if st.expectedType = CTRL_NEW_SESSION_STATUS_VAL ∧ st.expectedNum = seq then
    .ok ({ st with expectedNum := 0, expectedType := UNKNOWN_TYPE }, true)
  else if st.expectedType = UNKNOWN_TYPE then
    .error (.fedProMessageError "Unexpected Call Response")
  else .ok (st, false)

/-- `FedProMsgHandler.process_call_response`: accepts the response only
when its hla type exceeds 1, equals the expected response type, and its
sequence number equals the expected response request number; raises
`FedProMessageError` when no response was expected; flags exception
data (sequence matching) by moving the expectation to
`EXCEPTIONDATA_FIELD_NUMBER` (falling through, a falsy `None` in the
source); otherwise reports a mismatch.  (On this dispatch path the
message type is always `HLA_CALL_RESPONSE`, so the initial type guard
of the source never fires.) -/
def process_call_response (st : HState) (seq : Nat) (hla_type : Int)
    (result_data : List Nat) : Except PyError (HState × Bool) :=
  let st := { st with response := some (.callResponse seq hla_type result_data) }
  if 1 < hla_type ∧ st.expectedType = hla_type ∧ st.expectedNum = seq then
    .ok ({ st with expectedNum := 0, expectedType := UNKNOWN_TYPE }, true)
  else if st.expectedType = UNKNOWN_TYPE then
    .error (.fedProMessageError "Unexpected Call Response")
  else if hla_type = EXCEPTIONDATA_FIELD_NUMBER then
    if seq = st.expectedNum then
      .ok ({ st with expectedType := EXCEPTIONDATA_FIELD_NUMBER }, false)
    else .ok (st, false)
  else .ok (st, false)

/-- The stamped frame emitted by
`FedProMsgHandler.send_callback_response(seq, succeeded)`: a
`CallbackResponseMessage` sent through `send_message` with
`sending_callback_response = True`, preserving the sequence number.
The succeeded bit does not appear in the model of the frame, matching
`CallbackResponseMessage.to_bytes` (see `CallbackResponseMessage`). -/
def callback_response_env (seq : Nat) : OutEnv :=
  { msg_type := 23, seq := seq, session_id := 0, last_received := 0,
    request_tag := 0 }

/-- `FedProMsgHandler.process_callback_request`: with queueing enabled
the request is appended to `my_callback_request_queue` and the expected
response request number becomes its sequence plus one (returning
falsy, nothing dispatched); with queueing disabled and an ambassador
present, `my_sequence_num` is set to the request sequence, the request
is dispatched through `handle_callback_request` (which invokes the
matching `FederateAmbassadorFedPro` method and then sends the callback
response), returning truthy; without an ambassador it raises
`RTIinternalError`.

Modelled from the spec: the per-variant dispatch table keyed by
`FedProProtobuf` field numbers is not under the sources; the model
dispatches every callback to its ambassador method, which returns
normally here, followed by the success response (section 4.5 of the
spec); the raising case is modelled separately by
`dispatch_callback`. -/
def process_callback_request (st : HState) (seq : Nat) (hla_type : Int) :
    Except PyError (HState × Bool × List Event) :=
  let st := { st with response := some (.callbackRequest seq hla_type) }
  if st.queueCallbacks then
    .ok ({ st with queue := st.queue ++ [(seq, hla_type)]
                   expectedNum := seq + 1 }, false, [])
  else if st.hasAmbassador then
    let st := { st with seqNum := seq }
    let (_, _, evs) := send_message st (callback_response_env seq) true
    .ok (st, true, .ambassadorDispatched hla_type :: evs)
  else .error (.rtiInternalError "No federate ambassador to process callback request")

/-- One message of the `read_and_process` loop body: the per-type cast
and handler dispatch of the `msg_types` table.  `CTRL_SESSION_TERMINATED`
has no handler; its cast builds a fresh base message whose sequence
number is 0, which is what `my_last_received_message_number` is then
set to. -/
def process_message (st : HState) (m : InMsg) :
    Except PyError (HState × Bool × List Event) :=
  match m with
  | .newSessionStatus seq session_id status =>
    (process_new_session_status { st with lastReceived := seq } seq session_id
      status).map fun p => (p.1, p.2, [])
  | .heartbeatResponse seq =>
    .ok (process_heartbeat_response { st with lastReceived := seq } seq, false, [])
  | .sessionTerminated _ => .ok ({ st with lastReceived := 0 }, false, [])
  | .callResponse seq hla_type result_data =>
    (process_call_response { st with lastReceived := seq } seq hla_type
      result_data).map fun p => (p.1, p.2, [])
  | .callbackRequest seq hla_type =>
    process_callback_request { st with lastReceived := seq } seq hla_type

/-- The message loop of `FedProMsgHandler.read_and_process` over the
buffered inbound messages: each processed message updates
`my_last_received_message_number`, runs its handler, increments
`my_sequence_num` and bumps the count; the loop stops when a handler
returns truthy or no further data arrives before the deadline
(modelled by the exhausted list). -/
def rnp_loop (st : HState) :
    List InMsg → Except PyError (HState × List InMsg × Nat × Bool × List Event)
  | [] => .ok (st, [], 0, false, [])
  | m :: rest => do
    let (st1, got, evs) ← process_message st m
    let st2 := { st1 with seqNum := st1.seqNum + 1 }
    if got then .ok (st2, rest, 1, true, evs)
    else do
      let (st3, inb, cnt, g, evs2) ← rnp_loop st2 rest
      .ok (st3, inb, cnt + 1, g, evs ++ evs2)

/-- `FedProMsgHandler.read_and_process`: −1 when not connected,
otherwise the number of messages processed. -/
def read_and_process (st : HState) (inbound : List InMsg) :
    Except PyError (HState × List InMsg × Int × List Event) :=
  if st.connOk then
    (rnp_loop st inbound).map fun r => (r.1, r.2.1, (r.2.2.1 : Int), r.2.2.2.2)
  else .ok (st, inbound, -1, [])

/-- The two expectation assignments at the top of
`FedProMsgHandler.poll_for_call_response`: the expected response
request number becomes `my_last_received_message_number + 1` and the
expected response type the requested discriminator. -/
def install_expectation (st : HState) (response : Int) : HState :=
  { st with expectedNum := st.lastReceived + 1, expectedType := response }

/-- The loop exit condition of `poll_for_call_response`: the expected
type was cleared to `UNKNOWN` by a matching handler or moved to
`EXCEPTIONDATA_FIELD_NUMBER`. -/
def got_response_now (st : HState) : Bool :=
  st.expectedType == UNKNOWN_TYPE ||
    st.expectedType == EXCEPTIONDATA_FIELD_NUMBER

/-- The read loop of `poll_for_call_response`: repeat `read_and_process`
while the read succeeds and no matching response has arrived.  The fuel
(one more than the number of buffered messages suffices) replaces the
wall-clock; an exhausted buffer models the deadline elapsing with no
further data. -/
def poll_loop : Nat → HState → List InMsg →
    Except PyError (HState × List InMsg × Bool × List Event)
  | 0, st, inbound => .ok (st, inbound, true, [])
  | fuel + 1, st, inbound => do
    let (st1, inb1, cnt, evs) ← read_and_process st inbound
    if cnt < 0 then .ok (st1, inb1, false, evs)
    else if got_response_now st1 then .ok (st1, inb1, true, evs)
    else if inb1.isEmpty then .ok (st1, inb1, true, evs)
    else do
      let (st2, inb2, read_ok, evs2) ← poll_loop fuel st1 inb1
      .ok (st2, inb2, read_ok, evs ++ evs2)

/-- `FedProMsgHandler.poll_for_call_response`: installs the expectation,
runs the read loop, then reports −1 when exception data arrived, 1 when
the expected response arrived, 0 otherwise, clearing the expectation
slots. -/
def poll_for_call_response (st : HState) (response : Int)
    (inbound : List InMsg) :
    Except PyError (HState × List InMsg × Int × List Event) := do
  let st0 := install_expectation st response
  let (st1, inb1, _, evs) ← poll_loop (inbound.length + 1) st0 inbound
  let r : Int :=
    if st1.expectedType = EXCEPTIONDATA_FIELD_NUMBER then -1
    else if got_response_now st1 then 1
    else 0
  .ok ({ st1 with expectedNum := 0
                  expectedType := UNKNOWN_TYPE
                  pollResult := r }, inb1, r, evs)

/-- `FedProMsgHandler.send_and_wait`: sends the request (raising
`FedProMessageError` when the send fails) and polls for the expected
response type, returning whether the poll result was positive.  (The
heartbeat flag of the source only selects an unused parameter of the
poll.) -/
def send_and_wait (st : HState) (request : OutEnv)
    (expected_response_type : Int) (inbound : List InMsg) :
    Except PyError (Bool × HState × List InMsg × List Event) := do
  let (_, send_result, evs0) := send_message st request false
  if send_result = -1 then
    .error (.fedProMessageError "Socket failed to send message")
  else do
    let (st1, inb1, r, evs1) ← poll_for_call_response st
      expected_response_type inbound
    .ok (decide (0 < r), st1, inb1, evs0 ++ evs1)

/-! ## Ambassador facade (rtiAmbassadorFedPro.py, class RtiAmbassadorFedPro) -/

/-- Assignment into a Python dictionary modelled as an association
list: replace the value of an existing key or append the new pair. -/
def dict_set {κ α : Type} [BEq κ] : List (κ × α) → κ → α → List (κ × α)
  | [], k, v => [(k, v)]
  | (k0, v0) :: rest, k, v =>
    if k0 == k then (k0, v) :: rest else (k0, v0) :: dict_set rest k v

theorem lookup_dict_set {κ α : Type} [BEq κ] [LawfulBEq κ]
    (l : List (κ × α)) (k : κ) (v : α) :
    (dict_set l k v).lookup k = some v := by
  induction l with
  | nil => simp [dict_set, List.lookup]
  | cons p rest ih =>
    obtain ⟨k0, v0⟩ := p
    by_cases h : k0 = k
    · subst h
      simp [dict_set, List.lookup]
    · have hbeq : (k0 == k) = false := beq_false_of_ne h
      have hbeq2 : (k == k0) = false := beq_false_of_ne (Ne.symm h)
      simp [dict_set, hbeq, List.lookup, hbeq2, ih]

/-- The facade state of an `RtiAmbassadorFedPro`: its message handler
plus the caches touched by `get_object_class_handle` — the forward and
reverse object-class maps (handles as byte lists), and the per-class
attribute sub-maps created on insertion (held on the federate data of
the ambassador in the source). -/
structure RtiState where
  handler : HState
  my_obj_name_handles : List (String × List Nat)
  my_obj_handle_names : List (List Nat × String)
  my_attr_name_handles : List (List Nat × List (String × List Nat))
  my_attr_handle_names : List (List Nat × List (List Nat × String))
deriving DecidableEq, Repr

/-- The handle bytes pulled from
`my_fedPro_response.my_response_buf...result.data` after a successful
wait: the result data of the recorded call response. -/
def response_result_data (st : HState) : List Nat :=
  match st.response with
  | some (.callResponse _ _ d) => d
  | _ => []

/-- A fresh `CallRequestMessage` as built by the facade: type
`HLA_CALL_REQUEST` (20) with the request union discriminator; header
fields are stamped later by `send_message`. -/
def call_request_env (request_tag : Int) : OutEnv :=
  { msg_type := 20, seq := 0, session_id := 0, last_received := 0,
    request_tag := request_tag }

/-- `RtiAmbassadorFedPro.get_object_class_handle`: returns the cached
handle immediately when present; otherwise sends a
`getObjectClassHandleRequest` and waits, and on success caches the
returned handle in the forward and reverse maps, creates the empty
attribute sub-maps for the class, and returns the cache entry; on
failure raises `RTIinternalError`. -/
def get_object_class_handle (rst : RtiState) (object_class_name : String)
    (inbound : List InMsg) :
    Except PyError (RtiState × List InMsg × List Event × List Nat) :=
  match rst.my_obj_name_handles.lookup object_class_name with
  | some h => .ok (rst, inbound, [], h)
  | none => do
    let (ok, st1, inb1, evs) ← send_and_wait rst.handler
      (call_request_env GETOBJECTCLASSHANDLERESPONSE_FIELD_NUMBER)
      GETOBJECTCLASSHANDLERESPONSE_FIELD_NUMBER inbound
    if ok then
      let h := response_result_data st1
      .ok ({ handler := st1
             my_obj_name_handles :=
               dict_set rst.my_obj_name_handles object_class_name h
             my_obj_handle_names :=
               dict_set rst.my_obj_handle_names h object_class_name
             my_attr_name_handles := dict_set rst.my_attr_name_handles h []
             my_attr_handle_names := dict_set rst.my_attr_handle_names h [] },
           inb1, evs, h)
    else .error (.rtiInternalError "Failed to get object class handle")

/-- `RtiAmbassadorFedPro.update_attribute_values`: an empty attribute
map raises `RTIinternalError` locally, before any request is built or
sent; otherwise an `updateAttributeValuesRequest` is sent and awaited,
failure raising `RTIinternalError`.  The result quadruple exposes the
handler state, the remaining inbound buffer, the emitted frames and the
raised error (`none` on success); on the error paths before or inside
the wait the pre-call state is reported. -/
def update_attribute_values (st : HState) (object_instance_handle : List Nat)
    (attribute_values : List (List Nat × List Nat)) (user_supplied_tag : List Nat)
    (inbound : List InMsg) :
    HState × List InMsg × List Event × Option PyError :=
  if attribute_values.isEmpty then
    (st, inbound, [],
      some (.rtiInternalError "No attribute values provided for update"))
  else
    match send_and_wait st
      (call_request_env UPDATEATTRIBUTEVALUESRESPONSE_FIELD_NUMBER)
      UPDATEATTRIBUTEVALUESRESPONSE_FIELD_NUMBER inbound with
    | .error e => (st, inbound, [], some e)
    | .ok (ok, st1, inb1, evs) =>
      if ok then (st1, inb1, evs, none)
      else if st1.pollResult = -1 then
        (st1, inb1, evs,
          some (.rtiInternalError "Failed to update attribute values, exception received"))
      else
        (st1, inb1, evs,
          some (.rtiInternalError "Failed to update attribute values due to missing/invalid response"))

/-- `RtiAmbassadorFedPro.evoke_callback`: returns falsy (0) when the
connection flag is down or callback requests are disabled; otherwise
clears `my_queue_callback_requests`, runs `read_and_process` over the
buffered inbound messages, restores the flag and returns the count.
The queued entries of `my_callback_request_queue` are not read. -/
def evoke_callback (amb_conn_ok : Bool) (st : HState) (inbound : List InMsg) :
    Except PyError (HState × List InMsg × List Event × Int) :=
  if ¬ amb_conn_ok then .ok (st, inbound, [], 0)
  else if st.enableCallbacks then do
    let st := { st with queueCallbacks := false }
    let (st1, inb1, cnt, evs) ← read_and_process st inbound
    .ok ({ st1 with queueCallbacks := true }, inb1, evs, cnt)
  else .ok (st, inbound, [], 0)

/-! ## Callback dispatcher (federateAmbassadorFedPro.py) -/

/-- The callback variants registered by
`FederateAmbassadorFedPro.__init__`, plus the fallback handler for
unknown field numbers. -/
inductive CbVariant where
  | connectionLost
  | reportFederationExecutions
  | reportFederationExecutionMembers
  | reportFederationExecutionDoesNotExist
  | federateResigned
  | objectInstanceNameReservationSucceeded
  | objectNameReservationFailed
  | discoverObjectInstance
  | removeObjectInstance
  | reflectAttributeValues
  | receiveInteraction
  | unknownCallback
deriving DecidableEq, Repr

/-- Whether the dispatcher method for the variant wraps the ambassador
invocation in a try/except that answers failure: every registered
handler except `connection_lost` does (and `unknown_callback` invokes
no ambassador method). -/
def CbVariant.guarded : CbVariant → Bool
  | .connectionLost => false
  | .unknownCallback => false
  | _ => true

/-- Observable actions of one dispatcher method. -/
inductive DispatchEvent where
  | ambassadorInvoked (v : CbVariant)
  | callbackResponseSent (seq : Nat) (succeeded : Bool)
deriving DecidableEq, Repr

/-- One `FederateAmbassadorFedPro` dispatcher method, given whether the
underlying `FederateAmbassador` method raises.  The ten guarded methods
share the same shape: invoke the ambassador, then send the success
response, with a broad except clause sending the failure response.
`connection_lost` has no except clause: the success response follows a
normal return, and a raise escapes (second component true) with no
response sent.  `unknown_callback` logs and sends a failure response
without touching the ambassador.  The sequence number passed through is
the inbound request sequence handed over by `handle_callback_request`. -/
def dispatch_callback (v : CbVariant) (amb_raises : Bool) (seq : Nat) :
    List DispatchEvent × Bool :=
  match v with
  | .connectionLost =>
    if amb_raises then ([.ambassadorInvoked v], true)
    else ([.ambassadorInvoked v, .callbackResponseSent seq true], false)
  | .unknownCallback => ([.callbackResponseSent seq false], false)
  | _ =>
    if amb_raises then
      ([.ambassadorInvoked v, .callbackResponseSent seq false], false)
    else ([.ambassadorInvoked v, .callbackResponseSent seq true], false)

/-! ## Decidability of run results -/

instance instDecEqExcept {ε α : Type} [DecidableEq ε] [DecidableEq α] :
    DecidableEq (Except ε α) := fun a b =>
  match a, b with
  | .ok x, .ok y =>
    if h : x = y then isTrue (congrArg Except.ok h)
    else isFalse fun hc => h (Except.ok.inj hc)
  | .error x, .error y =>
    if h : x = y then isTrue (congrArg Except.error h)
    else isFalse fun hc => h (Except.error.inj hc)
  | .ok _, .error _ => isFalse fun hc => Except.noConfusion hc
  | .error _, .ok _ => isFalse fun hc => Except.noConfusion hc

/-! ## Concrete states used by counterexamples and witnesses -/

/-- A handler state as reached after a completed handshake: session id
adopted, one inbound message processed (`my_sequence_num = 1`,
`my_last_received_message_number = 1`), no pending expectation. -/
def c1State : HState :=
  { seqNum := 1, sessionId := 7, sessionStatus := 0, lastReceived := 1,
    pollResult := -2, expectedNum := 0, expectedType := 0,
    queueCallbacks := true, enableCallbacks := true, connOk := true,
    hasAmbassador := true, queue := [], response := none }

/-- The handler state after the run of
`send_and_wait_accepts_response_with_other_sequence`. -/
def c1FinalState : HState :=
  { seqNum := 2, sessionId := 7, sessionStatus := 0, lastReceived := 2,
    pollResult := 1, expectedNum := 0, expectedType := 0,
    queueCallbacks := true, enableCallbacks := true, connOk := true,
    hasAmbassador := true, queue := [],
    response := some (.callResponse 2 5 [171]) }

/-- A handler state in the middle of a wait: the expectation installed
by the poll is pending (`expectedNum = lastReceived + 1 = 2`, expected
response type 5) and the matching response is about to be processed. -/
def c1WaitState : HState :=
  { seqNum := 1, sessionId := 7, sessionStatus := 0, lastReceived := 2,
    pollResult := -2, expectedNum := 2, expectedType := 5,
    queueCallbacks := true, enableCallbacks := true, connOk := true,
    hasAmbassador := true, queue := [], response := none }

/-- `c1WaitState` after `process_call_response` accepted the matching
response. -/
def c1AcceptState : HState :=
  { c1WaitState with
    expectedNum := 0
    expectedType := 0
    response := some (.callResponse 2 5 [171]) }

/-! ## C1 — response matching -/

/-- C1 counterexample: in a synchronous call completed normally from
the post-handshake state, the outbound request is stamped with
sequence number 1 (the current `my_sequence_num`), while the envelope
accepted as the matching response carries sequence number 2 (the
installed expectation is `my_last_received_message_number + 1 = 2`,
not the minted request sequence), so the accepted sequence number
differs from the minted one. -/
theorem send_and_wait_accepts_response_with_other_sequence :
    send_and_wait c1State (call_request_env 5) 5 [.callResponse 2 5 [171]] =
      .ok (true, c1FinalState, [],
        [.sentFrame { msg_type := 20, seq := 1, session_id := 7,
                      last_received := 1, request_tag := 5 : OutEnv }]) ∧
    c1FinalState.response = some (.callResponse 2 5 [171]) ∧
    (2 : Nat) ≠ 1 := by decide

/-- C1 (amended): a call response is accepted only when its
response-type tag exceeds 1 and equals the expected response type and
its sequence number equals the matcher's expected response request
number; the expectation installed by `poll_for_call_response` holds
`my_last_received_message_number + 1`, not the sequence number minted
for the outbound request. -/
theorem process_call_response_accepts_only_expected (st : HState) (seq : Nat)
    (hla : Int) (result_data : List Nat) (st' : HState) (ty : Int)
    (h : process_call_response st seq hla result_data = .ok (st', true)) :
    1 < hla ∧ st.expectedType = hla ∧ st.expectedNum = seq ∧
    (install_expectation st ty).expectedNum = st.lastReceived + 1 := by
  simp only [process_call_response] at h
  split_ifs at h with h1 h2 h3 h4
  · exact ⟨h1.1, h1.2.1, h1.2.2, rfl⟩
  all_goals simp_all

/-- Witness for `process_call_response_accepts_only_expected` at a
concrete accepting input. -/
theorem process_call_response_accepts_only_expected_witness :
    1 < (5 : Int) ∧ c1WaitState.expectedType = 5 ∧ c1WaitState.expectedNum = 2 ∧
    (install_expectation c1WaitState 5).expectedNum = c1WaitState.lastReceived + 1 :=
  process_call_response_accepts_only_expected c1WaitState 2 5 [171]
    c1AcceptState 5 (by decide)

/-! ## C2 — outbound sequence numbering -/

/-- A handler state with `my_sequence_num = 5` and no pending traffic,
used to send two envelopes back to back. -/
def c2State : HState :=
  { seqNum := 5, sessionId := 7, sessionStatus := 0, lastReceived := 3,
    pollResult := 1, expectedNum := 0, expectedType := 0,
    queueCallbacks := true, enableCallbacks := true, connOk := true,
    hasAmbassador := true, queue := [], response := none }

/-- C2 counterexample: two consecutive outbound non-callback-response
envelopes sent with no inbound message processed in between (the
handler state is not modified by `send_message`) are both stamped with
sequence number 5, so the second is not strictly greater than the
first. -/
theorem send_message_consecutive_equal_sequence :
    (send_message c2State (call_request_env 5) false).1.seq = 5 ∧
    (send_message c2State (call_request_env 6) false).1.seq = 5 ∧
    ¬ (send_message c2State (call_request_env 6) false).1.seq >
       (send_message c2State (call_request_env 5) false).1.seq := by decide

/-- C2 (amended): `send_message` stamps every outbound
non-callback-response envelope with the current `my_sequence_num`
without incrementing it and leaves the handler state unchanged (the
counter advances only inside `read_and_process`, once per processed
inbound message), so two such envelopes sent consecutively carry equal
sequence numbers; a callback-response send preserves the sequence
number already carried by the message. -/
theorem send_message_stamps_current_counter (st : HState)
    (r1 r2 r3 : OutEnv) :
    (send_message st r1 false).1.seq = st.seqNum ∧
    (send_message st r2 false).1.seq = st.seqNum ∧
    (send_message st r2 false).1.seq = (send_message st r1 false).1.seq ∧
    (send_message st r3 true).1.seq = r3.seq := by
  cases hc : st.connOk <;> simp [send_message, hc]

/-! ## C4 — callback dispatcher responses -/

/-- C4 counterexample: `connection_lost` has no except clause, so when
the ambassador method `connectionLost` raises, the dispatcher emits no
`CallbackResponse` at all (in particular none with a false success
bit) and the exception escapes. -/
theorem connection_lost_raise_emits_no_response :
    (dispatch_callback .connectionLost true 7).1 =
      [.ambassadorInvoked .connectionLost] ∧
    (dispatch_callback .connectionLost true 7).2 = true ∧
    ¬ DispatchEvent.callbackResponseSent 7 false ∈
        (dispatch_callback .connectionLost true 7).1 := by decide

/-- C4 (amended): for every guarded callback variant (all registered
variants except `connectionLost`), the dispatcher invokes the
ambassador method first and then emits exactly one `CallbackResponse`
carrying the inbound request's sequence number, with the success bit
true on normal return and false when the method raised, and no
exception escapes; the `connectionLost` dispatcher behaves that way
only on normal return (a raise escapes with no response, see the
counterexample). -/
theorem dispatch_callback_response_follows_method (v : CbVariant)
    (amb_raises : Bool) (seq : Nat) (hg : v.guarded = true) :
    dispatch_callback v amb_raises seq =
      ([.ambassadorInvoked v, .callbackResponseSent seq (!amb_raises)], false) ∧
    dispatch_callback .connectionLost false seq =
      ([.ambassadorInvoked .connectionLost, .callbackResponseSent seq true],
        false) := by
  cases v <;> cases amb_raises <;>
    simp_all [dispatch_callback, CbVariant.guarded]

/-- Witness for `dispatch_callback_response_follows_method` at the
`reflectAttributeValues` variant with a raising ambassador method. -/
theorem dispatch_callback_response_follows_method_witness :
    dispatch_callback .reflectAttributeValues true 42 =
      ([.ambassadorInvoked .reflectAttributeValues,
        .callbackResponseSent 42 (!true)], false) ∧
    dispatch_callback .connectionLost false 42 =
      ([.ambassadorInvoked .connectionLost, .callbackResponseSent 42 true],
        false) :=
  dispatch_callback_response_follows_method .reflectAttributeValues true 42
    (by decide)

/-! ## C5 — evoke_callback and the callback queue -/

/-- A handler state holding one queued callback request
(sequence 42, a representative callback union tag) and an otherwise
idle connection. -/
def c5State : HState :=
  { seqNum := 3, sessionId := 7, sessionStatus := 0, lastReceived := 3,
    pollResult := 1, expectedNum := 0, expectedType := 0,
    queueCallbacks := true, enableCallbacks := true, connOk := true,
    hasAmbassador := true, queue := [(42, 8)], response := none }

/-- C5 failing input: a callback request (sequence 42) was queued while
queueing was enabled; `evoke_callback` then runs with no further
inbound data.  The code only toggles `my_queue_callback_requests`
around `read_and_process`, which reads from the socket; nothing reads
`my_callback_request_queue`, so the queued callback is not delivered to
the ambassador, no `CallbackResponse` is emitted, and the entry stays
queued. -/
theorem evoke_callback_leaves_queue_untouched :
    evoke_callback true c5State [] = .ok (c5State, [], [], 0) ∧
    c5State.queue = [(42, 8)] := by decide

/-! ## C6 — update_attribute_values with an empty map -/

/-- C6: `update_attribute_values` with an empty attribute map fails
locally — the error raised before anything is built or sent is the
no-attributes-provided kind (`RTIinternalError` with the dedicated
message in the source) — with no frame emitted and the handler state
(connection status, outbound sequence) returned unchanged. -/
theorem update_attribute_values_empty_map_fails_locally (st : HState)
    (object_instance_handle user_supplied_tag : List Nat)
    (inbound : List InMsg) :
    update_attribute_values st object_instance_handle [] user_supplied_tag
        inbound =
      (st, inbound, [],
        some (.rtiInternalError "No attribute values provided for update")) := rfl

/-! ## C8 — no dispatch while queueing is enabled -/

/-- C8: every processed `CallbackRequest` is either (queueing enabled)
appended to the callback queue with the expected response request
number advanced past its sequence and nothing dispatched to the
ambassador, or (queueing disabled, ambassador present) dispatched to
the ambassador followed by the callback response frame, with
`my_sequence_num` set to the request sequence. -/
theorem process_callback_request_queue_dichotomy (st : HState) (seq : Nat)
    (hla : Int) :
    (st.queueCallbacks = true →
      process_callback_request st seq hla =
        .ok ({ st with
               response := some (.callbackRequest seq hla)
               queue := st.queue ++ [(seq, hla)]
               expectedNum := seq + 1 }, false, [])) ∧
    (st.queueCallbacks = false → st.hasAmbassador = true →
      process_callback_request st seq hla =
        .ok ({ st with
               response := some (.callbackRequest seq hla)
               seqNum := seq }, true,
          .ambassadorDispatched hla ::
            (if st.connOk then
              [.sentFrame { msg_type := 23, seq := seq,
                            session_id := st.sessionId,
                            last_received := st.lastReceived,
                            request_tag := 0 : OutEnv }]
             else []))) := by
  constructor
  · intro hq
    simp [process_callback_request, hq]
  · intro hq ha
    cases hc : st.connOk <;>
      simp [process_callback_request, hq, ha, send_message,
        callback_response_env, hc]

/-- Witness for `process_callback_request_queue_dichotomy`: with
queueing enabled in `c2State`, the request (sequence 42, tag 8) is
queued and nothing is dispatched. -/
theorem process_callback_request_queue_dichotomy_witness :
    process_callback_request c2State 42 8 =
      .ok ({ c2State with
             response := some (.callbackRequest 42 8)
             queue := [(42, 8)]
             expectedNum := 43 }, false, []) :=
  (process_callback_request_queue_dichotomy c2State 42 8).1 rfl

/-! ## C9 — the NewSession handshake frame -/

/-- C9: a freshly constructed `NewSessionMessage` (protocol version 1,
sequence 0, session 0, last-received 0) serializes to exactly the
28-byte handshake frame of scenario S1: size 0x1C, zero sequence and
session fields, type 1 and protocol version 1 (the eight-byte packed
type supplying the four zero bytes read as last-received on the
wire). -/
theorem new_session_message_handshake_bytes :
    NewSessionMessage.to_bytes newSessionMessageInit =
      some [0, 0, 0, 0x1C, 0, 0, 0, 0, 0, 0, 0, 0, 0, 0, 0, 0,
            0, 0, 0, 0, 0, 0, 0, 1, 0, 0, 0, 1] := by decide

/-! ## C10 — callback response frames hide the success bit -/

/-- C10: for every sequence number, the serialized frames of
`CallbackResponseMessage(seq, succeeded=True)` and
`CallbackResponseMessage(seq, succeeded=False)` are byte-for-byte
identical — the protobuf payload is left empty in both cases — while
the outcome is recorded only in the in-memory `my_response_type`
(0 versus 1) and `my_succeeded` fields. -/
theorem callback_response_bytes_ignore_success (sequence_num : Nat) :
    CallbackResponseMessage.to_bytes
        (callbackResponseMessageInit sequence_num true) =
      CallbackResponseMessage.to_bytes
        (callbackResponseMessageInit sequence_num false) ∧
    (callbackResponseMessageInit sequence_num true).my_response_type = 0 ∧
    (callbackResponseMessageInit sequence_num false).my_response_type = 1 ∧
    (callbackResponseMessageInit sequence_num true).my_succeeded = true ∧
    (callbackResponseMessageInit sequence_num false).my_succeeded = false :=
  ⟨rfl, rfl, rfl, rfl, rfl⟩

/-! ## C3 — serialize/parse round trip -/

/-- A heartbeat envelope whose `my_last_received_msg` is 5. -/
def c3Msg : FedProMessage :=
  { my_msg_type := .CTRL_HEARTBEAT, my_msg_size := 24, my_session_id := 0,
    my_sequence_num := 0, my_last_received_msg := 5, my_payload := [] }

/-- C3 counterexample: serializing `c3Msg` with `to_bytes` and parsing
the frame back with `from_bytes` yields an envelope whose
`my_last_received_msg` is 0, not the original 5 — the base `to_bytes`
never serializes that field (the eight-byte packed type occupies its
wire position) — so the round trip does not restore all header
fields. -/
theorem round_trip_drops_last_received :
    FedProMessage.round_trip c3Msg =
      some { c3Msg with my_last_received_msg := 0 } ∧
    FedProMessage.round_trip c3Msg ≠ some c3Msg := by decide

/-- Parsing a frame laid out as `to_bytes` emits it: four size bytes,
then sequence, session and the eight-byte type whose upper half is
read back as `my_last_received_msg = 0`. -/
theorem from_bytes_of_to_bytes_layout (sz sq ss : Nat) (ty : MsgType)
    (hsz : sz < 256 ^ 4) (hsq : sq < 256 ^ 4) (hss : ss < 256 ^ 8) :
    FedProMessage.from_bytes
      [beBytes 4 sz,
       beBytes 4 sq ++ (beBytes 8 ss ++ beBytes 8 ty.toNat)] =
      some { my_msg_type := ty, my_msg_size := sz, my_session_id := ss,
             my_sequence_num := sq, my_last_received_msg := 0,
             my_payload := [] } := by
  have hty : ty.toNat < 256 ^ 4 := by cases ty <;> decide
  have htySplit : beBytes 8 ty.toNat = beBytes 4 0 ++ beBytes 4 ty.toNat := by
    have := beBytes_split 4 4 ty.toNat
    rwa [Nat.div_eq_of_lt hty] at this
  have hb1 : beBytes 4 sq ++ (beBytes 8 ss ++ beBytes 8 ty.toNat) =
      beBytes 4 sq ++ (beBytes 8 ss ++ (beBytes 4 0 ++ beBytes 4 ty.toNat)) := by
    rw [htySplit]
  rw [hb1]
  have hlen : (beBytes 4 sq ++ (beBytes 8 ss ++
      (beBytes 4 0 ++ beBytes 4 ty.toNat))).length = 20 := by
    simp [length_beBytes]
  have htk4 : (beBytes 4 sq ++ (beBytes 8 ss ++
      (beBytes 4 0 ++ beBytes 4 ty.toNat))).take 4 = beBytes 4 sq :=
    List.take_left' (length_beBytes 4 sq)
  have hdp4 : (beBytes 4 sq ++ (beBytes 8 ss ++
      (beBytes 4 0 ++ beBytes 4 ty.toNat))).drop 4 =
      beBytes 8 ss ++ (beBytes 4 0 ++ beBytes 4 ty.toNat) :=
    List.drop_left' (length_beBytes 4 sq)
  have hdp12 : (beBytes 4 sq ++ (beBytes 8 ss ++
      (beBytes 4 0 ++ beBytes 4 ty.toNat))).drop 12 =
      beBytes 4 0 ++ beBytes 4 ty.toNat := by
    rw [← List.drop_drop 8 4, hdp4]
    exact List.drop_left' (length_beBytes 8 ss)
  have hdp16 : (beBytes 4 sq ++ (beBytes 8 ss ++
      (beBytes 4 0 ++ beBytes 4 ty.toNat))).drop 16 =
      beBytes 4 ty.toNat := by
    rw [← List.drop_drop 4 12, hdp12]
    exact List.drop_left' (length_beBytes 4 0)
  have hdp20 : (beBytes 4 sq ++ (beBytes 8 ss ++
      (beBytes 4 0 ++ beBytes 4 ty.toNat))).drop 20 = [] := by
    rw [← List.drop_drop 4 16, hdp16]
    simp [List.drop_eq_nil_of_le, length_beBytes]
  have htk44 : (beBytes 4 ty.toNat).take 4 = beBytes 4 ty.toNat := by
    conv_lhs => rw [show (4 : Nat) = (beBytes 4 ty.toNat).length from
      (length_beBytes 4 ty.toNat).symm]
    exact List.take_length _
  have hsess : ((beBytes 4 sq ++ (beBytes 8 ss ++
      (beBytes 4 0 ++ beBytes 4 ty.toNat))).drop 4).take 8 = beBytes 8 ss := by
    rw [hdp4]
    exact List.take_left' (length_beBytes 8 ss)
  have hlast : ((beBytes 4 sq ++ (beBytes 8 ss ++
      (beBytes 4 0 ++ beBytes 4 ty.toNat))).drop 12).take 4 = beBytes 4 0 := by
    rw [hdp12]
    exact List.take_left' (length_beBytes 4 0)
  have hcond : (beBytes 4 sz).length = 4 ∧ 20 ≤ (beBytes 4 sq ++ (beBytes 8 ss ++
      (beBytes 4 0 ++ beBytes 4 ty.toNat))).length :=
    ⟨length_beBytes 4 sz, by rw [hlen]⟩
  simp only [FedProMessage.from_bytes]
  rw [if_pos hcond, hdp16, htk44, beVal_beBytes 4 ty.toNat hty,
    MsgType.ofNat_toNat, htk4, hsess, hlast, hdp20,
    beVal_beBytes 4 sz hsz, beVal_beBytes 4 sq hsq, beVal_beBytes 8 ss hss,
    beVal_beBytes 4 0 (by decide)]
  simp

/-- C3 (amended): for every envelope with in-range header fields,
serialize-then-parse restores the message size, sequence number,
session id and message type but resets `my_last_received_msg` to 0 and
drops the payload (the base `to_bytes` serializes neither); since
`to_bytes` reads only the preserved fields, re-serializing the parsed
envelope still yields byte equality with the original frame. -/
theorem fedpro_round_trip_amended (m : FedProMessage)
    (h1 : m.my_msg_size < 2 ^ 32) (h2 : m.my_sequence_num < 2 ^ 32)
    (h3 : m.my_session_id < 2 ^ 64) :
    FedProMessage.round_trip m =
      some { m with my_last_received_msg := 0, my_payload := [] } ∧
    FedProMessage.to_bytes { m with my_last_received_msg := 0, my_payload := [] } =
      FedProMessage.to_bytes m := by
  constructor
  · have henc : m.to_bytes = some (beBytes 4 m.my_msg_size ++
        (beBytes 4 m.my_sequence_num ++
          (beBytes 8 m.my_session_id ++ beBytes 8 m.my_msg_type.toNat))) := by
      unfold FedProMessage.to_bytes
      rw [if_pos ⟨h1, h2, h3⟩]
      simp [List.append_assoc]
    unfold FedProMessage.round_trip
    rw [henc, Option.some_bind]
    have htk : (beBytes 4 m.my_msg_size ++
        (beBytes 4 m.my_sequence_num ++
          (beBytes 8 m.my_session_id ++ beBytes 8 m.my_msg_type.toNat))).take 4 =
        beBytes 4 m.my_msg_size := List.take_left' (length_beBytes 4 _)
    have hdp : (beBytes 4 m.my_msg_size ++
        (beBytes 4 m.my_sequence_num ++
          (beBytes 8 m.my_session_id ++ beBytes 8 m.my_msg_type.toNat))).drop 4 =
        beBytes 4 m.my_sequence_num ++
          (beBytes 8 m.my_session_id ++ beBytes 8 m.my_msg_type.toNat) :=
      List.drop_left' (length_beBytes 4 _)
    rw [htk, hdp, from_bytes_of_to_bytes_layout m.my_msg_size
      m.my_sequence_num m.my_session_id m.my_msg_type
      (by norm_num at h1 ⊢; exact h1) (by norm_num at h2 ⊢; exact h2)
      (by norm_num at h3 ⊢; exact h3)]
  · rfl

/-- Witness for `fedpro_round_trip_amended` at a concrete envelope:
the parse of its frame restores everything except the zeroed
last-received field, and its re-serialization is byte-identical. -/
theorem fedpro_round_trip_amended_witness :
    FedProMessage.round_trip c3Msg =
      some { c3Msg with my_last_received_msg := 0, my_payload := [] } ∧
    FedProMessage.to_bytes { c3Msg with my_last_received_msg := 0, my_payload := [] } =
      FedProMessage.to_bytes c3Msg :=
  fedpro_round_trip_amended c3Msg (by decide) (by decide) (by decide)

/-! ## C7 — object class handle caching -/

/-- C7: whenever a `get_object_class_handle` call resolves successfully
(returning handle `h`), a second call for the same name on the
resulting state returns the equal handle `h` immediately from the
forward cache, emits no frame (no RTI call) and leaves the facade
state unchanged — the resolving call populated the forward name-to-
handle cache (and, on a miss, the reverse cache alongside it). -/
theorem get_object_class_handle_second_call_cached (rst rst' : RtiState)
    (object_class_name : String) (inbound inb1 : List InMsg)
    (evs : List Event) (h : List Nat)
    (hc : get_object_class_handle rst object_class_name inbound =
      .ok (rst', inb1, evs, h)) (inb2 : List InMsg) :
    get_object_class_handle rst' object_class_name inb2 =
      .ok (rst', inb2, [], h) := by
  have hl : rst'.my_obj_name_handles.lookup object_class_name = some h := by
    unfold get_object_class_handle at hc
    cases hlook : rst.my_obj_name_handles.lookup object_class_name with
    | some h0 =>
      rw [hlook] at hc
      simp only [Except.ok.injEq, Prod.mk.injEq] at hc
      rw [← hc.1, hlook, hc.2.2.2]
    | none =>
      rw [hlook] at hc
      cases hsw : send_and_wait rst.handler
          (call_request_env GETOBJECTCLASSHANDLERESPONSE_FIELD_NUMBER)
          GETOBJECTCLASSHANDLERESPONSE_FIELD_NUMBER inbound with
      | error e =>
        rw [hsw] at hc
        simp [Bind.bind, Except.bind] at hc
      | ok q =>
        obtain ⟨ok1, st1, i1, e1⟩ := q
        rw [hsw] at hc
        simp only [Bind.bind, Except.bind] at hc
        cases ok1 with
        | false => simp at hc
        | true =>
          rw [if_pos rfl] at hc
          simp only [Except.ok.injEq, Prod.mk.injEq] at hc
          rw [← hc.1, ← hc.2.2.2]
          exact lookup_dict_set _ _ _
  unfold get_object_class_handle
  rw [hl]

/-- The facade state behind `get_object_class_handle_witness`: the
post-handshake handler with empty caches. -/
def c7Rst0 : RtiState :=
  { handler := c1State, my_obj_name_handles := [], my_obj_handle_names := [],
    my_attr_name_handles := [], my_attr_handle_names := [] }

/-- `c7Rst0` after resolving the name to handle bytes `[171]` through
the wire (scenario S2: handle `0xAB`). -/
def c7Rst1 : RtiState :=
  { handler := c1FinalState
    my_obj_name_handles := [("Ball", [171])]
    my_obj_handle_names := [([171], "Ball")]
    my_attr_name_handles := [([171], [])]
    my_attr_handle_names := [([171], [])] }

/-- Witness for `get_object_class_handle_second_call_cached`: after the
concrete resolving call (cache miss, one request frame, response with
handle bytes `[171]`), the second call returns the same handle with no
frame emitted. -/
theorem get_object_class_handle_second_call_cached_witness :
    get_object_class_handle c7Rst1 "Ball" [] = .ok (c7Rst1, [], [], [171]) :=
  get_object_class_handle_second_call_cached c7Rst0 c7Rst1 "Ball"
    [.callResponse 2 GETOBJECTCLASSHANDLERESPONSE_FIELD_NUMBER [171]] []
    [.sentFrame { msg_type := 20, seq := 1, session_id := 7,
                  last_received := 1,
                  request_tag := GETOBJECTCLASSHANDLERESPONSE_FIELD_NUMBER }]
    [171] (by decide) []

end FedPro
